import Mathlib

/-!
Verification of the Noor MCP Code Assistant server (`src/config.py`,
`src/mcp_server.py`) against its specification.

The development is a shallow embedding of the two Python modules:

* configuration (`config.py`) becomes the `Config` structure;
* the tool catalog (`list_tools`) becomes `list_tools`;
* the dispatch router (`call_tool`) becomes `call_tool`;
* the two request handlers become `handle_code_assistant` and
  `handle_universal_code_assistant`.

Python-specific behaviour is embedded explicitly:

* argument values (`dict[str, Any]`) are modelled by `PyVal`, a universe of
  the JSON scalar values an argument mapping can carry; `Args.get` is
  `dict.get` with a default;
* `str.strip()` is `pyStrip` (Python strips the six ASCII whitespace
  characters); calling `.strip()` on a non-string raises `AttributeError`,
  which `pyStripAttr` models by returning `Except.error` with Python's
  exact exception text;
* Python truthiness of an optional string field (`if data.get("answer"):`)
  is `pyTruthy`: absent and empty strings are falsy;
* the `a or b or c` selection of the error message is `pyOrElse`.

Effects are made explicit: a handler run returns the list of HTTP requests
it issued, the log entries it wrote to the diagnostic channel (stderr), and
the `CallToolResult` it produced; an exception escaping the handler is an
`Except.error` carrying `str(e)`.  The outcome of the (at most one) outbound
HTTP POST is an input (`HttpOutcome`), covering the four `except` arms of the
source: connection error, timeout, non-2xx status (`raise_for_status`), any
other exception raised inside the `try` block, and the parsed JSON body on
success.  The remote JSON body is modelled by `RagData`, whose optional
fields follow the documented response schema.  `REQUEST_TIMEOUT` is a float
in the source; the embedding keeps its decimal rendering (a `String`), which
is all the handlers use it for in messages, and records it on the request.
-/

/-- The six characters Python's `str.strip()` removes. -/
def pyIsSpace (c : Char) : Bool :=
  c = ' ' || c = '\t' || c = '\n' || c = '\x0d' || c = '\x0b' || c = '\x0c'

/-- Python `str.strip()`: drop leading and trailing whitespace. -/
def pyStrip (s : String) : String :=
  ⟨((s.data.dropWhile pyIsSpace).reverse.dropWhile pyIsSpace).reverse⟩

/-- Whether the character list `pat` is a prefix of `s`. -/
def charsPrefix : List Char → List Char → Bool
  | [], _ => true
  | _ :: _, [] => false
  | a :: as, b :: bs => a = b && charsPrefix as bs

/-- Whether the character list `pat` occurs inside `s`. -/
def charsSub (pat : List Char) : List Char → Bool
  | [] => charsPrefix pat []
  | c :: rest => charsPrefix pat (c :: rest) || charsSub pat rest

/-- Whether the string `pat` occurs inside `s` (substring containment). -/
def strContains (s pat : String) : Bool := charsSub pat.data s.data

/-- A JSON scalar value carried by the tool-call argument mapping
(`dict[str, Any]` in the source). -/
inductive PyVal where
  | none
  | bool (b : Bool)
  | int (n : Int)
  | str (s : String)
deriving DecidableEq, Repr

/-- Python's type name for a `PyVal`, as it appears in exception text. -/
def PyVal.pyTypeName : PyVal → String
  | .none => "NoneType"
  | .bool _ => "bool"
  | .int _ => "int"
  | .str _ => "str"

/-- Whether the value is a Python `str`. -/
def PyVal.isStr : PyVal → Bool
  | .str _ => true
  | _ => false

/-- The tool-call argument mapping: string keys to `PyVal` values. -/
def Args := List (String × PyVal)

/-- Python `dict.get(key, default)`. -/
def Args.get (a : Args) (k : String) (dflt : PyVal) : PyVal :=
  match List.lookup k a with
  | some v => v
  | Option.none => dflt

/-- Python `value.strip()` as the handlers call it on the looked-up message:
succeeds with the stripped string on a `str`, raises `AttributeError`
(modelled as `Except.error` with Python's exception text) on anything else. -/
def pyStripAttr : PyVal → Except String String
  | .str s => .ok (pyStrip s)
  | v => .error ("'" ++ v.pyTypeName ++ "' object has no attribute 'strip'")

/-- The configuration singleton of `config.py`.  `REQUEST_TIMEOUT` is kept as
the decimal rendering of the float (the default `float("120")` renders as
`"120.0"`). -/
structure Config where
  RAG_API_BASE_URL : String
  RAG_CHAT_ENDPOINT : String
  UNIVERSAL_RAG_ENDPOINT : String
  DEFAULT_SESSION_ID : String
  REQUEST_TIMEOUT : String
  ENABLE_DOTNET_RAG : Bool
  ENABLE_UNIVERSAL_RAG : Bool
deriving DecidableEq, Repr

/-- Derived full URL for the RAG chat endpoint (`config.rag_chat_url`). -/
def Config.rag_chat_url (c : Config) : String :=
  c.RAG_API_BASE_URL ++ c.RAG_CHAT_ENDPOINT

/-- Derived full URL for the universal endpoint (`config.universal_rag_url`). -/
def Config.universal_rag_url (c : Config) : String :=
  c.RAG_API_BASE_URL ++ c.UNIVERSAL_RAG_ENDPOINT

/-- The configuration produced by the defaults of `config.py` when no
environment variable overrides anything. -/
def default_config : Config where
  RAG_API_BASE_URL := "http://localhost:8900"
  RAG_CHAT_ENDPOINT := "/api/chat/rag"
  UNIVERSAL_RAG_ENDPOINT := "/api/chat/universal"
  DEFAULT_SESSION_ID := "claude-desktop-session"
  REQUEST_TIMEOUT := "120.0"
  ENABLE_DOTNET_RAG := true
  ENABLE_UNIVERSAL_RAG := true

/-- The default configuration with the .NET tool disabled
(`ENABLE_DOTNET_RAG=false`). -/
def config_dotnet_off : Config :=
  { default_config with ENABLE_DOTNET_RAG := false }

/-- One property of a tool's input schema (a `"type"`, a `"description"`,
and an optional `"default"`). -/
structure PropertySpec where
  type : String
  description : String
  defaultStr : Option String
deriving DecidableEq, Repr

/-- The input schema of a tool: an object with a `message` property, a
`session_id` property and a `required` list. -/
structure ToolInputSchema where
  type : String
  message_property : PropertySpec
  session_id_property : PropertySpec
  required : List String
deriving DecidableEq, Repr

/-- A tool descriptor (`mcp.types.Tool`): name, description, input schema. -/
structure Tool where
  name : String
  description : String
  inputSchema : ToolInputSchema
deriving DecidableEq, Repr

/-- The `code_assistant` description string after Python's `.strip()`
(interior indentation of the triple-quoted literal is preserved). -/
def code_assistant_description : String :=
  "Intelligent Code Assistant powered by RAG (Retrieval-Augmented Generation).\n" ++
  "\n" ++
  "            Use this tool when you need to:\n" ++
  "            - Generate C#/.NET code based on existing codebase patterns\n" ++
  "            - Query information about project architecture and structure\n" ++
  "            - Get code snippets that follow the project's conventions\n" ++
  "            - Find existing methods, DTOs, services, or interfaces\n" ++
  "            - Generate SQL queries for the project's database schema\n" ++
  "            - Understand how specific features are implemented\n" ++
  "\n" ++
  "            The tool has access to complete codebase context including:\n" ++
  "            - ASP.NET Core 8 APIs and Controllers\n" ++
  "            - PostgreSQL/SQL Server database schemas\n" ++
  "            - Service interfaces and implementations\n" ++
  "            - DTOs, Entities, and ViewModels\n" ++
  "            - Repository patterns and data access layers\n" ++
  "            - Clean Architecture project structures\n" ++
  "\n" ++
  "            Returns detailed code examples with comprehensive explanations."

/-- The `universal_code_assistant` description string after `.strip()`. -/
def universal_code_assistant_description : String :=
  "Universal Code Assistant powered by RAG for ANY programming language.\n" ++
  "\n" ++
  "            Use this tool when you need to:\n" ++
  "            - Query any non-.NET codebase (Python, Java, React, Go, Rust, PHP, Ruby, C++, Flutter)\n" ++
  "            - Understand project architecture and patterns for any language\n" ++
  "            - Find existing functions, classes, components, or modules\n" ++
  "            - Generate code following the project's conventions\n" ++
  "            - Get code snippets with explanations\n" ++
  "\n" ++
  "            The language/framework is configured on the server side via config.yaml."

/-- The `code_assistant` tool descriptor as declared in `list_tools`. -/
def code_assistant_tool (cfg : Config) : Tool where
  name := "code_assistant"
  description := code_assistant_description
  inputSchema :=
    { type := "object"
      message_property :=
        { type := "string"
          description :=
            "Your code-related question or request. Be specific about what you need. " ++
            "Examples: 'Create a C# function to get employee requests by ID', " ++
            "'Show me how pagination is implemented in this project', " ++
            "'Generate a DTO for the Employee table'"
          defaultStr := Option.none }
      session_id_property :=
        { type := "string"
          description :=
            "Optional session ID for conversation continuity. " ++
            "Use the same session_id to maintain context across multiple questions."
          defaultStr := some cfg.DEFAULT_SESSION_ID }
      required := ["message"] }

/-- The `universal_code_assistant` tool descriptor as declared in
`list_tools`. -/
def universal_code_assistant_tool (cfg : Config) : Tool where
  name := "universal_code_assistant"
  description := universal_code_assistant_description
  inputSchema :=
    { type := "object"
      message_property :=
        { type := "string"
          description :=
            "Your code-related question or request. Be specific about what you need. " ++
            "Examples: 'How is authentication implemented?', " ++
            "'Show me the main API routes', " ++
            "'How is state management done in this project?'"
          defaultStr := Option.none }
      session_id_property :=
        { type := "string"
          description :=
            "Optional session ID for conversation continuity. " ++
            "Use the same session_id to maintain context across multiple questions."
          defaultStr := some cfg.DEFAULT_SESSION_ID }
      required := ["message"] }

/-- The tool catalog: declare both tools, then filter by the configuration
flags exactly as the loop at the end of the source's `list_tools` does. -/
def list_tools (cfg : Config) : List Tool :=
  let tools := [code_assistant_tool cfg, universal_code_assistant_tool cfg]
  tools.filter fun tool =>
    if tool.name = "code_assistant" && !cfg.ENABLE_DOTNET_RAG then false
    else if tool.name = "universal_code_assistant" && !cfg.ENABLE_UNIVERSAL_RAG then false
    else true

/-- The parsed JSON body of a successful HTTP response from the remote RAG
service.  Optional fields follow the documented response schema
(`ok`, `answer`, `sql`, `markdown`, `needs_clarification`, `chunks_count`,
`language`, `error`, `message`); an absent field is `Option.none`. -/
structure RagData where
  ok : Option Bool := Option.none
  answer : Option String := Option.none
  sql : Option String := Option.none
  markdown : Option String := Option.none
  needs_clarification : Option String := Option.none
  chunks_count : Option Int := Option.none
  language : Option String := Option.none
  error : Option String := Option.none
  message : Option String := Option.none
deriving DecidableEq, Repr

/-- Python truthiness of an optional string field, as in
`if data.get("answer"):` — absent (`None`) and the empty string are falsy. -/
def pyTruthy : Option String → Bool
  | some s => s != ""
  | Option.none => false

/-- Python `a or b` on an optional string field against a fallback, as in
`data.get("error") or data.get("message") or "Unknown error..."`:
keep the field's value when it is truthy, else the fallback. -/
def pyOrElse (v : Option String) (fallback : String) : String :=
  match v with
  | some s => if s != "" then s else fallback
  | Option.none => fallback

/-- Python's rendering of `data.get("ok")` inside an f-string:
`None`, `True` or `False`. -/
def pyReprOptBool : Option Bool → String
  | Option.none => "None"
  | some true => "True"
  | some false => "False"

/-- Log severity on the diagnostic channel (`logger.info` / `logger.error`). -/
inductive LogLevel where
  | info
  | error
deriving DecidableEq, Repr

/-- One entry written to the diagnostic channel (stderr). -/
structure LogEntry where
  level : LogLevel
  msg : String
deriving DecidableEq, Repr

/-- One outbound HTTP POST as the handlers issue it: target URL, JSON payload
(a dict of `PyVal`s), headers, and the client timeout (the rendering of
`config.REQUEST_TIMEOUT`). -/
structure HttpRequest where
  url : String
  payload : List (String × PyVal)
  headers : List (String × String)
  timeout : String
deriving DecidableEq, Repr

/-- The outcome of the single outbound HTTP POST, one case per `except` arm
of the source plus the parsed JSON body on success:
`httpx.ConnectError`, `httpx.TimeoutException`, `httpx.HTTPStatusError`
(raised by `response.raise_for_status()` on a non-2xx status, carrying the
status code and the raw response text), any other exception raised inside
the `try` block (carrying its type name and message), or the parsed body. -/
inductive HttpOutcome where
  | connectError
  | timeoutException
  | statusError (status : Nat) (body : String)
  | otherError (excType : String) (excMsg : String)
  | success (data : RagData)
deriving DecidableEq, Repr

/-- The result returned over the protocol boundary: the text of the single
text content block, and the error flag (`isError`, which defaults to
`false` when the source omits it). -/
structure CallToolResult where
  text : String
  isError : Bool
deriving DecidableEq, Repr

/-- Everything one handler run produces: the HTTP requests it issued (in
order), the log entries it wrote to the diagnostic channel (in order), and
its `CallToolResult`. -/
structure HandlerRun where
  requests : List HttpRequest
  logs : List LogEntry
  result : CallToolResult
deriving DecidableEq, Repr

/-- The run of a handler call that raised before producing anything (used
only as the default of the projections below; under the hypotheses of the
theorems the handler always returns `Except.ok`). -/
def HandlerRun.empty : HandlerRun :=
  { requests := [], logs := [], result := { text := "", isError := false } }

/-- Projection to the run, defaulting the escaped-exception case. -/
def runOrEmpty : Except String HandlerRun → HandlerRun
  | .ok run => run
  | .error _ => HandlerRun.empty

/-- The requests a handler call issued. -/
def requestsOf (r : Except String HandlerRun) : List HttpRequest :=
  (runOrEmpty r).requests

/-- The log entries a handler call wrote. -/
def logsOf (r : Except String HandlerRun) : List LogEntry :=
  (runOrEmpty r).logs

/-- The `CallToolResult` a handler call produced. -/
def resultOf (r : Except String HandlerRun) : CallToolResult :=
  (runOrEmpty r).result

/-- `handle_code_assistant` of `src/mcp_server.py`, embedded statement by
statement.  `arguments.get("message", "").strip()` is `pyStripAttr` of the
looked-up value: on a non-string it raises, and the exception escapes the
handler (`Except.error`), since it occurs before the `try` block.  The
validation return, the payload, the pre-call log, and every `except` arm
reproduce the source's strings. -/
def handle_code_assistant (cfg : Config) (arguments : Args) (http : HttpOutcome) :
    Except String HandlerRun :=
  match pyStripAttr (arguments.get "message" (.str "")) with
  | .error e => .error e
  | .ok message =>
    let session_id := arguments.get "session_id" (.str cfg.DEFAULT_SESSION_ID)
    if message == "" then
      .ok { requests := [], logs := [],
            result := { text := "Please provide a message/question for the code assistant.",
                        isError := true } }
    else
      let payload : List (String × PyVal) :=
        [("session_id", session_id), ("message", .str message)]
      let preLogs : List LogEntry :=
        [{ level := .info, msg := "Calling RAG API: " ++ cfg.rag_chat_url }]
      let req : HttpRequest :=
        { url := cfg.rag_chat_url, payload := payload,
          headers := [("Content-Type", "application/json")],
          timeout := cfg.REQUEST_TIMEOUT }
      match http with
      | .connectError =>
        .ok { requests := [req],
              logs := preLogs ++
                [{ level := .error, msg := "Connection error to " ++ cfg.rag_chat_url }],
              result :=
                { text := "Connection Error: Cannot reach RAG API at " ++ cfg.rag_chat_url ++
                    "\n\nPlease ensure your Python RAG server is running:\n" ++
                    "cd /path/to/your/rag-project\n" ++
                    "source env_container/bin/activate\n" ++
                    "uvicorn main:app --reload --port 8900",
                  isError := true } }
      | .timeoutException =>
        .ok { requests := [req],
              logs := preLogs ++
                [{ level := .error, msg := "Timeout after " ++ cfg.REQUEST_TIMEOUT ++ "s" }],
              result :=
                { text := "Request Timeout: The RAG API did not respond within " ++
                    cfg.REQUEST_TIMEOUT ++ " seconds.\n\n" ++
                    "Try simplifying your question or increasing REQUEST_TIMEOUT in .env",
                  isError := true } }
      | .statusError status body =>
        .ok { requests := [req],
              logs := preLogs ++
                [{ level := .error, msg := "HTTP error: " ++ toString status }],
              result :=
                { text := "HTTP Error " ++ toString status ++ ": " ++ body,
                  isError := true } }
      | .otherError excType excMsg =>
        .ok { requests := [req],
              logs := preLogs ++
                [{ level := .error, msg := "Unexpected error: " ++ excMsg }],
              result :=
                { text := "Unexpected Error: " ++ excType ++ ": " ++ excMsg,
                  isError := true } }
      | .success data =>
        let okLog : LogEntry :=
          { level := .info, msg := "RAG API response received, ok=" ++ pyReprOptBool data.ok }
        if !(data.ok.getD false) then
          let error_msg := pyOrElse data.error (pyOrElse data.message "Unknown error from RAG API")
          .ok { requests := [req], logs := preLogs ++ [okLog],
                result := { text := "RAG API Error: " ++ error_msg, isError := true } }
        else
          let result_parts : List String := []
          let result_parts :=
            if pyTruthy data.answer then result_parts ++ [data.answer.getD ""] else result_parts
          let result_parts :=
            if pyTruthy data.sql then
              result_parts ++ ["\n\n### Generated SQL\n```sql\n" ++ data.sql.getD "" ++ "\n```"]
            else result_parts
          let result_parts :=
            if pyTruthy data.markdown then
              result_parts ++ ["\n\n" ++ data.markdown.getD ""]
            else result_parts
          let result_parts :=
            if pyTruthy data.needs_clarification then
              result_parts ++ ["\n\n**Clarification Needed:** " ++ data.needs_clarification.getD ""]
            else result_parts
          let chunks_count := data.chunks_count.getD 0
          let result_parts :=
            if chunks_count > 0 then
              result_parts ++
                ["\n\n---\n*Context: " ++ toString chunks_count ++
                  " code chunks analyzed from your codebase*"]
            else result_parts
          let final_response :=
            if result_parts != [] then String.intercalate "\n" result_parts
            else "No response from code assistant."
          .ok { requests := [req], logs := preLogs ++ [okLog],
                result := { text := final_response, isError := false } }

/-- `handle_universal_code_assistant` of `src/mcp_server.py`, embedded the
same way.  Note the differences faithful to the source: no SQL or markdown
parts, a footer naming `language` (default `"unknown"`), and no log entry
in the timeout and HTTP-status `except` arms. -/
def handle_universal_code_assistant (cfg : Config) (arguments : Args) (http : HttpOutcome) :
    Except String HandlerRun :=
  match pyStripAttr (arguments.get "message" (.str "")) with
  | .error e => .error e
  | .ok message =>
    let session_id := arguments.get "session_id" (.str cfg.DEFAULT_SESSION_ID)
    if message == "" then
      .ok { requests := [], logs := [],
            result := { text := "Please provide a message/question for the universal code assistant.",
                        isError := true } }
    else
      let payload : List (String × PyVal) :=
        [("session_id", session_id), ("message", .str message)]
      let preLogs : List LogEntry :=
        [{ level := .info, msg := "Calling Universal RAG API: " ++ cfg.universal_rag_url }]
      let req : HttpRequest :=
        { url := cfg.universal_rag_url, payload := payload,
          headers := [("Content-Type", "application/json")],
          timeout := cfg.REQUEST_TIMEOUT }
      match http with
      | .connectError =>
        .ok { requests := [req],
              logs := preLogs ++
                [{ level := .error, msg := "Connection error to " ++ cfg.universal_rag_url }],
              result :=
                { text := "Connection Error: Cannot reach Universal RAG API at " ++
                    cfg.universal_rag_url ++
                    "\n\nPlease ensure your Python RAG server is running:\n" ++
                    "uvicorn main:app --reload --port 8900",
                  isError := true } }
      | .timeoutException =>
        .ok { requests := [req], logs := preLogs,
              result :=
                { text := "Request Timeout: The Universal RAG API did not respond within " ++
                    cfg.REQUEST_TIMEOUT ++ " seconds.",
                  isError := true } }
      | .statusError status body =>
        .ok { requests := [req], logs := preLogs,
              result :=
                { text := "HTTP Error " ++ toString status ++ ": " ++ body,
                  isError := true } }
      | .otherError excType excMsg =>
        .ok { requests := [req],
              logs := preLogs ++
                [{ level := .error, msg := "Unexpected error: " ++ excMsg }],
              result :=
                { text := "Unexpected Error: " ++ excType ++ ": " ++ excMsg,
                  isError := true } }
      | .success data =>
        let okLog : LogEntry :=
          { level := .info,
            msg := "Universal RAG API response received, ok=" ++ pyReprOptBool data.ok }
        if !(data.ok.getD false) then
          let error_msg :=
            pyOrElse data.error (pyOrElse data.message "Unknown error from Universal RAG API")
          .ok { requests := [req], logs := preLogs ++ [okLog],
                result := { text := "Universal RAG API Error: " ++ error_msg, isError := true } }
        else
          let result_parts : List String := []
          let result_parts :=
            if pyTruthy data.answer then result_parts ++ [data.answer.getD ""] else result_parts
          let result_parts :=
            if pyTruthy data.needs_clarification then
              result_parts ++ ["\n\n**Clarification Needed:** " ++ data.needs_clarification.getD ""]
            else result_parts
          let chunks_count := data.chunks_count.getD 0
          let language := data.language.getD "unknown"
          let result_parts :=
            if chunks_count > 0 then
              result_parts ++
                ["\n\n---\n*Context: " ++ toString chunks_count ++
                  " code chunks analyzed (" ++ language ++ " codebase)*"]
            else result_parts
          let final_response :=
            if result_parts != [] then String.intercalate "\n" result_parts
            else "No response from universal code assistant."
          .ok { requests := [req], logs := preLogs ++ [okLog],
                result := { text := final_response, isError := false } }

/-- A request handler, as the dispatch table stores it. -/
def Handler := Config → Args → HttpOutcome → Except String HandlerRun

/-- The name-to-handler mapping `call_tool` builds, restricted to the
currently enabled tools, in insertion order. -/
def build_handlers (cfg : Config) : List (String × Handler) :=
  (if cfg.ENABLE_DOTNET_RAG then [("code_assistant", handle_code_assistant)] else []) ++
  (if cfg.ENABLE_UNIVERSAL_RAG then
    [("universal_code_assistant", handle_universal_code_assistant)] else [])

/-- `call_tool` of `src/mcp_server.py`: log the call, build the handler
mapping, dispatch.  An unknown name yields the unknown-tool error result
listing the available tool names joined by a comma; a handler exception is
caught at this boundary, logged, and converted to the generic error result.
The function is total: no fault propagates to the transport loop. -/
def call_tool (cfg : Config) (http : HttpOutcome) (name : String) (arguments : Args) :
    HandlerRun :=
  let toolLog : LogEntry := { level := .info, msg := "Tool called: " ++ name }
  let handlers := build_handlers cfg
  match List.lookup name handlers with
  | Option.none =>
    { requests := [], logs := [toolLog],
      result :=
        { text := "Unknown tool: '" ++ name ++ "'. Available tools: " ++
            String.intercalate ", " (handlers.map Prod.fst),
          isError := true } }
  | some handler =>
    match handler cfg arguments http with
    | .ok run =>
      { requests := run.requests, logs := toolLog :: run.logs, result := run.result }
    | .error e =>
      { requests := [],
        logs := [toolLog,
          { level := .error, msg := "Error executing tool '" ++ name ++ "': " ++ e }],
        result :=
          { text := "Error executing tool '" ++ name ++ "': " ++ e, isError := true } }

/-- Helper: looking a key up in an association list whose keys avoid it
yields nothing. -/
theorem lookup_eq_none_of_not_mem {β : Type} (name : String) (l : List (String × β))
    (h : name ∉ l.map Prod.fst) : List.lookup name l = Option.none := by
  induction l with
  | nil => rfl
  | cons p t ih =>
    simp only [List.map_cons, List.mem_cons, not_or] at h
    obtain ⟨h1, h2⟩ := h
    cases p with
    | mk k v =>
      have hb : (name == k) = false := by simpa [beq_iff_eq] using h1
      simp only [List.lookup, hb]
      exact ih h2

/-- C2: for every combination of the two enable flags, `list_tools` returns
exactly the descriptors whose flag is true, in declaration order
(`code_assistant` before `universal_code_assistant`), and the empty
sequence when both flags are false. -/
theorem list_tools_matches_flags (cfg : Config) :
    list_tools cfg =
      (if cfg.ENABLE_DOTNET_RAG then [code_assistant_tool cfg] else []) ++
      (if cfg.ENABLE_UNIVERSAL_RAG then [universal_code_assistant_tool cfg] else []) := by
  rcases cfg with ⟨b, ce, ue, sid, tmo, d, u⟩
  cases d <;> cases u <;> rfl

/-- C3: a tool name with no handler among the currently enabled tools (also
the name of a declared tool whose flag is off) executes no handler — no
HTTP request is issued — and yields an error-flagged result whose text
holds the attempted name and the names of all currently enabled tools
joined by a comma. -/
theorem call_tool_unknown_tool (cfg : Config) (http : HttpOutcome) (name : String)
    (args : Args) (h : name ∉ (build_handlers cfg).map Prod.fst) :
    call_tool cfg http name args =
      { requests := [],
        logs := [{ level := .info, msg := "Tool called: " ++ name }],
        result :=
          { text := "Unknown tool: '" ++ name ++ "'. Available tools: " ++
              String.intercalate ", " ((build_handlers cfg).map Prod.fst),
            isError := true } } := by
  simp only [call_tool, lookup_eq_none_of_not_mem name (build_handlers cfg) h]

/-- C3 witness: with the .NET tool disabled, dispatching `code_assistant`
yields the unknown-tool error listing only `universal_code_assistant`. -/
theorem call_tool_unknown_tool_witness :
    "code_assistant" ∉ (build_handlers config_dotnet_off).map Prod.fst ∧
    call_tool config_dotnet_off .connectError "code_assistant" [] =
      { requests := [],
        logs := [{ level := .info, msg := "Tool called: code_assistant" }],
        result :=
          { text := "Unknown tool: 'code_assistant'. Available tools: universal_code_assistant",
            isError := true } } :=
  ⟨by decide, call_tool_unknown_tool config_dotnet_off .connectError "code_assistant" [] (by decide)⟩

/-- C5: an argument mapping whose `message` value strips to the empty string
(absent, empty, or whitespace-only) makes both handlers return the
error-flagged guidance result, with no HTTP request issued. -/
theorem handlers_empty_message_no_http (cfg : Config) (args : Args) (http : HttpOutcome)
    (s : String) (hget : args.get "message" (.str "") = .str s)
    (hempty : pyStrip s = "") :
    handle_code_assistant cfg args http =
      .ok { requests := [], logs := [],
            result := { text := "Please provide a message/question for the code assistant.",
                        isError := true } } ∧
    handle_universal_code_assistant cfg args http =
      .ok { requests := [], logs := [],
            result := { text := "Please provide a message/question for the universal code assistant.",
                        isError := true } } := by
  constructor <;>
    simp only [handle_code_assistant, handle_universal_code_assistant, hget, pyStripAttr,
      hempty] <;> rfl

/-- C5 witness: a whitespace-only message validates out of both handlers with
no request issued. -/
theorem handlers_empty_message_no_http_witness :
    Args.get [("message", .str "   ")] "message" (.str "") = .str "   " ∧
    pyStrip "   " = "" ∧
    handle_code_assistant default_config [("message", .str "   ")] .connectError =
      .ok { requests := [], logs := [],
            result := { text := "Please provide a message/question for the code assistant.",
                        isError := true } } ∧
    handle_universal_code_assistant default_config [("message", .str "   ")] .connectError =
      .ok { requests := [], logs := [],
            result := { text := "Please provide a message/question for the universal code assistant.",
                        isError := true } } :=
  ⟨by decide, by decide,
    (handlers_empty_message_no_http default_config [("message", .str "   ")] .connectError
      "   " (by decide) (by decide)).1,
    (handlers_empty_message_no_http default_config [("message", .str "   ")] .connectError
      "   " (by decide) (by decide)).2⟩

/-- C6 (amended): for a message that passes validation, each handler issues
exactly one HTTP POST whose JSON payload is exactly
`{"session_id": session_id, "message": m}` — no extra fields, no renaming —
where `m` is the supplied message after trimming surrounding whitespace
(so `m` equals the message as supplied exactly when the supplied message
has no surrounding whitespace). -/
theorem handlers_payload_exact (cfg : Config) (args : Args) (http : HttpOutcome) (s : String)
    (hget : args.get "message" (.str "") = .str s) (hne : pyStrip s ≠ "") :
    requestsOf (handle_code_assistant cfg args http) =
      [{ url := cfg.rag_chat_url,
         payload := [("session_id", args.get "session_id" (.str cfg.DEFAULT_SESSION_ID)),
                     ("message", .str (pyStrip s))],
         headers := [("Content-Type", "application/json")],
         timeout := cfg.REQUEST_TIMEOUT }] ∧
    requestsOf (handle_universal_code_assistant cfg args http) =
      [{ url := cfg.universal_rag_url,
         payload := [("session_id", args.get "session_id" (.str cfg.DEFAULT_SESSION_ID)),
                     ("message", .str (pyStrip s))],
         headers := [("Content-Type", "application/json")],
         timeout := cfg.REQUEST_TIMEOUT }] := by
  have hb : (pyStrip s == "") = false := by simpa [beq_iff_eq] using hne
  constructor <;>
  · simp only [handle_code_assistant, handle_universal_code_assistant, hget, pyStripAttr, hb,
      Bool.false_eq_true, if_false]
    cases http with
    | connectError => rfl
    | timeoutException => rfl
    | statusError status body => rfl
    | otherError excType excMsg => rfl
    | success data =>
      cases hok : (!data.ok.getD false) <;> simp only [hok] <;> rfl

/-- C6 amended witness: a concrete valid message and session id produce the
single exact payload. -/
theorem handlers_payload_exact_witness :
    Args.get [("message", .str "hello"), ("session_id", .str "s1")] "message" (.str "") =
      .str "hello" ∧
    pyStrip "hello" ≠ "" ∧
    requestsOf (handle_code_assistant default_config
        [("message", .str "hello"), ("session_id", .str "s1")] .connectError) =
      [{ url := "http://localhost:8900/api/chat/rag",
         payload := [("session_id", .str "s1"), ("message", .str "hello")],
         headers := [("Content-Type", "application/json")],
         timeout := "120.0" }] :=
  ⟨by decide, by decide,
    (handlers_payload_exact default_config [("message", .str "hello"), ("session_id", .str "s1")]
      .connectError "hello" (by decide) (by decide)).1⟩

/-- C6 counterexample: the claim says the `message` field of the payload
equals the message argument as supplied; for the validated message
`" hi"` (surrounding whitespace) the payload carries the trimmed `"hi"`,
not `" hi"` as supplied. -/
theorem handlers_payload_counterexample :
    requestsOf (handle_code_assistant default_config [("message", .str " hi")] .connectError) =
      [{ url := "http://localhost:8900/api/chat/rag",
         payload := [("session_id", .str "claude-desktop-session"), ("message", .str "hi")],
         headers := [("Content-Type", "application/json")],
         timeout := "120.0" }] ∧
    PyVal.str "hi" ≠ PyVal.str " hi" := by decide

/-- C7: when the dispatched handler raises an exception that was not already
converted to a result, `call_tool` catches it at the dispatch boundary,
logs it, and returns the error-flagged generic result; `call_tool` is a
total function, so no invocation propagates an unhandled fault to the
transport loop. -/
theorem call_tool_catches_handler_exception (cfg : Config) (http : HttpOutcome) (name : String)
    (args : Args) (f : Handler) (e : String)
    (hf : List.lookup name (build_handlers cfg) = some f)
    (he : f cfg args http = .error e) :
    call_tool cfg http name args =
      { requests := [],
        logs := [{ level := .info, msg := "Tool called: " ++ name },
                 { level := .error, msg := "Error executing tool '" ++ name ++ "': " ++ e }],
        result := { text := "Error executing tool '" ++ name ++ "': " ++ e,
                    isError := true } } := by
  simp only [call_tool, hf, he]

/-- C7 witness: a non-string message makes `handle_code_assistant` raise
before any conversion, and `call_tool` converts it into the generic
error result. -/
theorem call_tool_catches_handler_exception_witness :
    List.lookup "code_assistant" (build_handlers default_config) = some handle_code_assistant ∧
    handle_code_assistant default_config [("message", .int 5)] .connectError =
      .error "'int' object has no attribute 'strip'" ∧
    call_tool default_config .connectError "code_assistant" [("message", .int 5)] =
      { requests := [],
        logs := [{ level := .info, msg := "Tool called: code_assistant" },
                 { level := .error,
                   msg := "Error executing tool 'code_assistant': 'int' object has no attribute 'strip'" }],
        result := { text := "Error executing tool 'code_assistant': 'int' object has no attribute 'strip'",
                    isError := true } } :=
  ⟨rfl, rfl,
    call_tool_catches_handler_exception default_config .connectError "code_assistant"
      [("message", .int 5)] handle_code_assistant "'int' object has no attribute 'strip'" rfl rfl⟩

/-- C10: a `message` argument that is present but not a string never reaches
the empty-message validation: the `.strip()` call raises, the exception
escapes the handler, and the dispatch boundary converts it into the
generic error result (not the validation guidance). -/
theorem nonstring_message_generic_error (cfg : Config) (args : Args) (http : HttpOutcome)
    (v : PyVal) (hv : args.get "message" (.str "") = v) (hns : v.isStr = false) :
    handle_code_assistant cfg args http =
      .error ("'" ++ v.pyTypeName ++ "' object has no attribute 'strip'") ∧
    handle_universal_code_assistant cfg args http =
      .error ("'" ++ v.pyTypeName ++ "' object has no attribute 'strip'") ∧
    (cfg.ENABLE_DOTNET_RAG = true →
      call_tool cfg http "code_assistant" args =
        { requests := [],
          logs := [{ level := .info, msg := "Tool called: code_assistant" },
                   { level := .error,
                     msg := "Error executing tool 'code_assistant': " ++
                       ("'" ++ v.pyTypeName ++ "' object has no attribute 'strip'") }],
          result := { text := "Error executing tool 'code_assistant': " ++
                        ("'" ++ v.pyTypeName ++ "' object has no attribute 'strip'"),
                      isError := true } }) ∧
    (cfg.ENABLE_UNIVERSAL_RAG = true →
      call_tool cfg http "universal_code_assistant" args =
        { requests := [],
          logs := [{ level := .info, msg := "Tool called: universal_code_assistant" },
                   { level := .error,
                     msg := "Error executing tool 'universal_code_assistant': " ++
                       ("'" ++ v.pyTypeName ++ "' object has no attribute 'strip'") }],
          result := { text := "Error executing tool 'universal_code_assistant': " ++
                        ("'" ++ v.pyTypeName ++ "' object has no attribute 'strip'"),
                      isError := true } }) := by
  have hmC : handle_code_assistant cfg args http =
      .error ("'" ++ v.pyTypeName ++ "' object has no attribute 'strip'") := by
    simp only [handle_code_assistant, hv]
    cases v with
    | str s => simp [PyVal.isStr] at hns
    | none => rfl
    | bool b => rfl
    | int n => rfl
  have hmU : handle_universal_code_assistant cfg args http =
      .error ("'" ++ v.pyTypeName ++ "' object has no attribute 'strip'") := by
    simp only [handle_universal_code_assistant, hv]
    cases v with
    | str s => simp [PyVal.isStr] at hns
    | none => rfl
    | bool b => rfl
    | int n => rfl
  refine ⟨hmC, hmU, ?_, ?_⟩
  · intro hd
    simp [call_tool, build_handlers, hd, List.lookup, hmC]
  · intro hu
    have hne : ("universal_code_assistant" == "code_assistant") = false := by decide
    cases hD : cfg.ENABLE_DOTNET_RAG <;>
      simp [call_tool, build_handlers, hD, hu, List.lookup, hne, hmU]

/-- C10 witness: the numeric message `5` yields the attribute-error text
through the dispatch boundary, not the validation error. -/
theorem nonstring_message_generic_error_witness :
    Args.get [("message", .int 5)] "message" (.str "") = .int 5 ∧
    PyVal.isStr (.int 5) = false ∧
    handle_code_assistant default_config [("message", .int 5)] .timeoutException =
      .error "'int' object has no attribute 'strip'" ∧
    call_tool default_config .timeoutException "universal_code_assistant" [("message", .int 5)] =
      { requests := [],
        logs := [{ level := .info, msg := "Tool called: universal_code_assistant" },
                 { level := .error,
                   msg := "Error executing tool 'universal_code_assistant': 'int' object has no attribute 'strip'" }],
        result := { text := "Error executing tool 'universal_code_assistant': 'int' object has no attribute 'strip'",
                    isError := true } } :=
  ⟨by decide, by decide,
    (nonstring_message_generic_error default_config [("message", .int 5)] .timeoutException
      (.int 5) (by decide) (by decide)).1,
    (nonstring_message_generic_error default_config [("message", .int 5)] .timeoutException
      (.int 5) (by decide) (by decide)).2.2.2 rfl⟩

/-- C4: with a validated message and a parsed JSON body, each handler
returns the error-flagged result whose text is the handler label followed
by the selected message — the body's `error` field when truthy, else its
`message` field when truthy, else the fixed handler-naming fallback —
exactly when the body's `ok` field is false or absent; when `ok` is true
the success mapping runs and the result is non-error.  (Following the
spec's data model, which treats absent fields as empty, a present-but-empty
field counts as absent.) -/
theorem handlers_api_error_iff (cfg : Config) (args : Args) (s : String)
    (hget : args.get "message" (.str "") = .str s) (hne : pyStrip s ≠ "")
    (data : RagData) :
    (data.ok.getD false = false →
      resultOf (handle_code_assistant cfg args (.success data)) =
        { text := "RAG API Error: " ++
            pyOrElse data.error (pyOrElse data.message "Unknown error from RAG API"),
          isError := true } ∧
      resultOf (handle_universal_code_assistant cfg args (.success data)) =
        { text := "Universal RAG API Error: " ++
            pyOrElse data.error (pyOrElse data.message "Unknown error from Universal RAG API"),
          isError := true }) ∧
    (data.ok.getD false = true →
      (resultOf (handle_code_assistant cfg args (.success data))).isError = false ∧
      (resultOf (handle_universal_code_assistant cfg args (.success data))).isError = false) := by
  have hb : (pyStrip s == "") = false := by simpa [beq_iff_eq] using hne
  constructor
  · intro hok
    constructor <;>
      · simp only [handle_code_assistant, handle_universal_code_assistant, hget, pyStripAttr,
          hb, hok]
        rfl
  · intro hok
    constructor <;>
      · simp only [handle_code_assistant, handle_universal_code_assistant, hget, pyStripAttr,
          hb, hok]
        rfl

/-- C4 witness: the body `{"ok": false, "error": "boom"}` yields the
error-flagged result whose text carries `boom`; the body `{"ok": true}`
yields a non-error result. -/
theorem handlers_api_error_iff_witness :
    Args.get [("message", .str "q")] "message" (.str "") = .str "q" ∧
    pyStrip "q" ≠ "" ∧
    resultOf (handle_code_assistant default_config [("message", .str "q")]
        (.success { ok := some false, error := some "boom" })) =
      { text := "RAG API Error: boom", isError := true } ∧
    (resultOf (handle_universal_code_assistant default_config [("message", .str "q")]
        (.success { ok := some true }))).isError = false :=
  ⟨by decide, by decide,
    ((handlers_api_error_iff default_config [("message", .str "q")] "q" (by decide) (by decide)
      { ok := some false, error := some "boom" }).1 rfl).1,
    ((handlers_api_error_iff default_config [("message", .str "q")] "q" (by decide) (by decide)
      { ok := some true }).2 rfl).2⟩

/-- A present part of the success mapping, as the specification words it: the
rendered field when it is present, dropped otherwise.  Following the spec's
data model, which treats absent fields as empty, a present-but-empty string
counts as absent. -/
def presentPart (field : Option String) (render : String → String) : Option String :=
  match field with
  | some s => if s != "" then some (render s) else Option.none
  | Option.none => Option.none

/-- The spec's fixed-order part list for `code_assistant`: answer, fenced
`Generated SQL` block, markdown, bolded `Clarification Needed:` line, and
the `chunks_count` footer only when `chunks_count > 0`. -/
def spec_code_assistant_parts (data : RagData) : List String :=
  List.filterMap id
    [presentPart data.answer (fun s => s),
     presentPart data.sql (fun s => "\n\n### Generated SQL\n```sql\n" ++ s ++ "\n```"),
     presentPart data.markdown (fun s => "\n\n" ++ s),
     presentPart data.needs_clarification (fun s => "\n\n**Clarification Needed:** " ++ s),
     if data.chunks_count.getD 0 > 0 then
       some ("\n\n---\n*Context: " ++ toString (data.chunks_count.getD 0) ++
         " code chunks analyzed from your codebase*")
     else Option.none]

/-- The spec's fixed-order part list for `universal_code_assistant`: answer,
bolded `Clarification Needed:` line, and the `chunks_count` footer — which
also names the `language` field, defaulting to `"unknown"` — only when
`chunks_count > 0`. -/
def spec_universal_parts (data : RagData) : List String :=
  List.filterMap id
    [presentPart data.answer (fun s => s),
     presentPart data.needs_clarification (fun s => "\n\n**Clarification Needed:** " ++ s),
     if data.chunks_count.getD 0 > 0 then
       some ("\n\n---\n*Context: " ++ toString (data.chunks_count.getD 0) ++
         " code chunks analyzed (" ++ data.language.getD "unknown" ++ " codebase)*")
     else Option.none]

/-- Bridge: a present part is the rendered field exactly when the field is
truthy. -/
theorem presentPart_eq_ite (field : Option String) (render : String → String) :
    presentPart field render =
      if pyTruthy field then some (render (field.getD "")) else Option.none := by
  cases field <;> rfl

/-- C1: with a validated message, for every JSON body whose `ok` field is
true, each handler's result text is the parts of the spec's fixed-order
list joined by the newline of `"\n".join` (each part carrying its noted
blank-line separation), the fixed `No response from <handler>.` fallback
when no part was produced, and the result is non-error. -/
theorem handlers_success_fixed_order (cfg : Config) (args : Args) (s : String)
    (hget : args.get "message" (.str "") = .str s) (hne : pyStrip s ≠ "")
    (data : RagData) (hok : data.ok.getD false = true) :
    resultOf (handle_code_assistant cfg args (.success data)) =
      { text := if spec_code_assistant_parts data != [] then
                  String.intercalate "\n" (spec_code_assistant_parts data)
                else "No response from code assistant.",
        isError := false } ∧
    resultOf (handle_universal_code_assistant cfg args (.success data)) =
      { text := if spec_universal_parts data != [] then
                  String.intercalate "\n" (spec_universal_parts data)
                else "No response from universal code assistant.",
        isError := false } := by
  have hb : (pyStrip s == "") = false := by simpa [beq_iff_eq] using hne
  constructor <;>
  · simp only [spec_code_assistant_parts, spec_universal_parts, presentPart_eq_ite]
    simp only [handle_code_assistant, handle_universal_code_assistant, hget, pyStripAttr,
      hb, hok]
    cases h1 : pyTruthy data.answer <;> cases h2 : pyTruthy data.sql <;>
      cases h3 : pyTruthy data.markdown <;> cases h4 : pyTruthy data.needs_clarification <;>
      by_cases h5 : Option.getD data.chunks_count 0 > 0 <;>
      simp [h1, h2, h3, h4, h5, resultOf, runOrEmpty, List.filterMap]

/-- The body of the spec's success-mapping test:
`{"ok": true, "answer": "X", "chunks_count": 3}`. -/
def data_answer_chunks : RagData :=
  { ok := some true, answer := some "X", chunks_count := some 3 }

/-- C1 witness: the body `{"ok": true, "answer": "X", "chunks_count": 3}`
produces the non-error text of answer and footer in order. -/
theorem handlers_success_fixed_order_witness :
    Args.get [("message", .str "q")] "message" (.str "") = .str "q" ∧
    pyStrip "q" ≠ "" ∧
    (data_answer_chunks.ok).getD false = true ∧
    resultOf (handle_code_assistant default_config [("message", .str "q")]
        (.success data_answer_chunks)) =
      { text := "X\n\n\n---\n*Context: 3 code chunks analyzed from your codebase*",
        isError := false } :=
  ⟨by decide, by decide, by decide,
    ((handlers_success_fixed_order default_config [("message", .str "q")] "q" (by decide)
      (by decide) data_answer_chunks (by decide)).1).trans (by decide)⟩

/-- C8 (amended): `handle_code_assistant` writes a failure log entry on every
failure path (connection failure, timeout, non-2xx status, unexpected
error) before returning; `handle_universal_code_assistant` does so only on
the connection-failure and unexpected-error paths, and returns from its
timeout and non-2xx-status paths with no entry beyond the pre-request
announcement. -/
theorem handlers_failure_logging (cfg : Config) (args : Args) (s : String)
    (hget : args.get "message" (.str "") = .str s) (hne : pyStrip s ≠ "")
    (status : Nat) (body excType excMsg : String) :
    logsOf (handle_code_assistant cfg args .connectError) =
      [{ level := .info, msg := "Calling RAG API: " ++ cfg.rag_chat_url },
       { level := .error, msg := "Connection error to " ++ cfg.rag_chat_url }] ∧
    logsOf (handle_code_assistant cfg args .timeoutException) =
      [{ level := .info, msg := "Calling RAG API: " ++ cfg.rag_chat_url },
       { level := .error, msg := "Timeout after " ++ cfg.REQUEST_TIMEOUT ++ "s" }] ∧
    logsOf (handle_code_assistant cfg args (.statusError status body)) =
      [{ level := .info, msg := "Calling RAG API: " ++ cfg.rag_chat_url },
       { level := .error, msg := "HTTP error: " ++ toString status }] ∧
    logsOf (handle_code_assistant cfg args (.otherError excType excMsg)) =
      [{ level := .info, msg := "Calling RAG API: " ++ cfg.rag_chat_url },
       { level := .error, msg := "Unexpected error: " ++ excMsg }] ∧
    logsOf (handle_universal_code_assistant cfg args .connectError) =
      [{ level := .info, msg := "Calling Universal RAG API: " ++ cfg.universal_rag_url },
       { level := .error, msg := "Connection error to " ++ cfg.universal_rag_url }] ∧
    logsOf (handle_universal_code_assistant cfg args .timeoutException) =
      [{ level := .info, msg := "Calling Universal RAG API: " ++ cfg.universal_rag_url }] ∧
    logsOf (handle_universal_code_assistant cfg args (.statusError status body)) =
      [{ level := .info, msg := "Calling Universal RAG API: " ++ cfg.universal_rag_url }] ∧
    logsOf (handle_universal_code_assistant cfg args (.otherError excType excMsg)) =
      [{ level := .info, msg := "Calling Universal RAG API: " ++ cfg.universal_rag_url },
       { level := .error, msg := "Unexpected error: " ++ excMsg }] := by
  have hb : (pyStrip s == "") = false := by simpa [beq_iff_eq] using hne
  refine ⟨?_, ?_, ?_, ?_, ?_, ?_, ?_, ?_⟩ <;>
    · simp only [handle_code_assistant, handle_universal_code_assistant, hget, pyStripAttr, hb]
      rfl

/-- C8 amended witness: the concrete failure outcomes at the default
configuration produce exactly the listed log entries. -/
theorem handlers_failure_logging_witness :
    logsOf (handle_code_assistant default_config [("message", .str "q")] .connectError) =
      [{ level := .info, msg := "Calling RAG API: http://localhost:8900/api/chat/rag" },
       { level := .error, msg := "Connection error to http://localhost:8900/api/chat/rag" }] ∧
    logsOf (handle_code_assistant default_config [("message", .str "q")] .timeoutException) =
      [{ level := .info, msg := "Calling RAG API: http://localhost:8900/api/chat/rag" },
       { level := .error, msg := "Timeout after 120.0s" }] ∧
    logsOf (handle_code_assistant default_config [("message", .str "q")] (.statusError 500 "boom")) =
      [{ level := .info, msg := "Calling RAG API: http://localhost:8900/api/chat/rag" },
       { level := .error, msg := "HTTP error: 500" }] ∧
    logsOf (handle_code_assistant default_config [("message", .str "q")]
        (.otherError "ValueError" "bad json")) =
      [{ level := .info, msg := "Calling RAG API: http://localhost:8900/api/chat/rag" },
       { level := .error, msg := "Unexpected error: bad json" }] ∧
    logsOf (handle_universal_code_assistant default_config [("message", .str "q")] .connectError) =
      [{ level := .info, msg := "Calling Universal RAG API: http://localhost:8900/api/chat/universal" },
       { level := .error, msg := "Connection error to http://localhost:8900/api/chat/universal" }] ∧
    logsOf (handle_universal_code_assistant default_config [("message", .str "q")] .timeoutException) =
      [{ level := .info, msg := "Calling Universal RAG API: http://localhost:8900/api/chat/universal" }] ∧
    logsOf (handle_universal_code_assistant default_config [("message", .str "q")]
        (.statusError 500 "boom")) =
      [{ level := .info, msg := "Calling Universal RAG API: http://localhost:8900/api/chat/universal" }] ∧
    logsOf (handle_universal_code_assistant default_config [("message", .str "q")]
        (.otherError "ValueError" "bad json")) =
      [{ level := .info, msg := "Calling Universal RAG API: http://localhost:8900/api/chat/universal" },
       { level := .error, msg := "Unexpected error: bad json" }] :=
  handlers_failure_logging default_config [("message", .str "q")] "q" (by decide) (by decide)
    500 "boom" "ValueError" "bad json"

/-- C8 counterexample: on the timeout failure path of
`handle_universal_code_assistant` the error result is returned with no log
entry recording the failure — the only entry on the diagnostic channel is
the pre-request announcement, written before the failure occurred, and no
entry at all is written at the failure (error) level.  The claim that a
log entry containing the failure detail is written on every failure path
of both handlers is therefore false at this input. -/
theorem universal_timeout_logs_nothing :
    resultOf (handle_universal_code_assistant default_config [("message", .str "q")]
        .timeoutException) =
      { text := "Request Timeout: The Universal RAG API did not respond within 120.0 seconds.",
        isError := true } ∧
    logsOf (handle_universal_code_assistant default_config [("message", .str "q")]
        .timeoutException) =
      [{ level := .info, msg := "Calling Universal RAG API: http://localhost:8900/api/chat/universal" }] ∧
    (logsOf (handle_universal_code_assistant default_config [("message", .str "q")]
        .timeoutException)).filter (fun entry => entry.level == .error) = [] := by
  decide

/-- C9 (amended): on a timeout both handlers return an error-flagged result
whose text names the configured timeout value, but only `code_assistant`
additionally suggests simplifying the question or increasing the timeout
setting; `universal_code_assistant` only states the timeout. -/
theorem handlers_timeout_text (cfg : Config) (args : Args) (s : String)
    (hget : args.get "message" (.str "") = .str s) (hne : pyStrip s ≠ "") :
    resultOf (handle_code_assistant cfg args .timeoutException) =
      { text := "Request Timeout: The RAG API did not respond within " ++ cfg.REQUEST_TIMEOUT ++
          " seconds.\n\n" ++
          "Try simplifying your question or increasing REQUEST_TIMEOUT in .env",
        isError := true } ∧
    resultOf (handle_universal_code_assistant cfg args .timeoutException) =
      { text := "Request Timeout: The Universal RAG API did not respond within " ++
          cfg.REQUEST_TIMEOUT ++ " seconds.",
        isError := true } := by
  have hb : (pyStrip s == "") = false := by simpa [beq_iff_eq] using hne
  constructor <;>
    · simp only [handle_code_assistant, handle_universal_code_assistant, hget, pyStripAttr, hb]
      rfl

/-- C9 amended witness: at the default configuration both timeout texts
contain the rendered timeout value `120.0`. -/
theorem handlers_timeout_text_witness :
    resultOf (handle_code_assistant default_config [("message", .str "q")] .timeoutException) =
      { text := "Request Timeout: The RAG API did not respond within 120.0 seconds.\n\n" ++
          "Try simplifying your question or increasing REQUEST_TIMEOUT in .env",
        isError := true } ∧
    strContains (resultOf (handle_code_assistant default_config [("message", .str "q")]
        .timeoutException)).text "120.0" = true ∧
    strContains (resultOf (handle_universal_code_assistant default_config [("message", .str "q")]
        .timeoutException)).text "120.0" = true :=
  ⟨((handlers_timeout_text default_config [("message", .str "q")] "q" (by decide)
      (by decide)).1).trans (by decide),
   by decide, by decide⟩

/-- C9 counterexample: the timeout text of `handle_universal_code_assistant`
names the configured timeout value but contains no suggestion to simplify
the request or raise the timeout setting (no `simplif`, `increas`, `rais`
or `REQUEST_TIMEOUT` fragment), so the claim that both handlers' timeout
texts carry that suggestion is false at this input. -/
theorem universal_timeout_text_no_remedy :
    resultOf (handle_universal_code_assistant default_config [("message", .str "q")]
        .timeoutException) =
      { text := "Request Timeout: The Universal RAG API did not respond within 120.0 seconds.",
        isError := true } ∧
    strContains "Request Timeout: The Universal RAG API did not respond within 120.0 seconds."
      "120.0" = true ∧
    strContains "Request Timeout: The Universal RAG API did not respond within 120.0 seconds."
      "simplif" = false ∧
    strContains "Request Timeout: The Universal RAG API did not respond within 120.0 seconds."
      "increas" = false ∧
    strContains "Request Timeout: The Universal RAG API did not respond within 120.0 seconds."
      "rais" = false ∧
    strContains "Request Timeout: The Universal RAG API did not respond within 120.0 seconds."
      "REQUEST_TIMEOUT" = false := by
  decide
